import Mathlib

set_option maxRecDepth 8192

/-!
Verification development for the `ai-navigator` repository.

The development shallowly embeds the core logic of the repository:

* `navigator/memory/semantic_indexer.py` — the in-memory semantic store
  (`add_to_memory`, `search_memory`, `_cosine_similarity`);
* `navigator/web_navigator.py` — the plan-execution loop
  (`navigate_and_learn`, `execute_step_with_code_generation`, `go_to_url`,
  `execute_selenium_code`, `process_and_store_api_request`);
* `navigator/orchestrator.py` — `perform_web_goal`.

Conventions of the embedding:

* Python floats are modelled as real numbers (`ℝ`).
* Python strings are modelled by Lean `String`; the Python string methods
  used by the source (`lower`, `strip`, `replace(pat, "")`, `split`,
  `startswith`, substring containment) are implemented over the underlying
  character lists so that they compute by kernel reduction.
* External collaborators are a `World` record of oracles.  The repository's
  `OllamaClient.generate_text` catches every exception and returns a fallback
  payload, so all language-model calls (planning, code generation, UI and API
  analysis, embeddings) are modelled as total functions.  The browser driver
  and the relational store raise on failure in the source (the source wraps
  some — not all — of those calls in `try`), so they are modelled as
  `Except`-valued oracles.
* A raised Python exception is the `Option String` component of a result
  triple `state × trace × Option String`; `none` means normal return.
  State mutations performed before a `raise` are preserved, as in Python.
-/

/-! ### Python string primitives, modelled on character lists -/

/-- Python `str.replace(pat, "")` (remove every occurrence of `pat`),
scanning left to right, non-overlapping.  The `Nat` argument is fuel,
instantiated with the length of the string so that the function is
structurally recursive (the fuel never runs out). -/
def removeAllAux (pat : List Char) : Nat → List Char → List Char
  | _, [] => []
  | 0, s => s
  | Nat.succ fuel, c :: rest =>
      if pat ≠ [] && pat.isPrefixOf (c :: rest) then
        removeAllAux pat fuel (List.drop pat.length (c :: rest))
      else c :: removeAllAux pat fuel rest

/-- Python `s.replace(pat, "")` for a non-empty `pat`. -/
def pyRemoveAll (s pat : String) : String :=
  (removeAllAux pat.toList s.toList.length s.toList).asString

/-- Python `s.lower()` (the source only lowercases ASCII text). -/
def pyLower (s : String) : String := (s.toList.map Char.toLower).asString

/-- Python `s.strip()`. -/
def pyStrip (s : String) : String :=
  ((((s.toList.dropWhile Char.isWhitespace).reverse).dropWhile
      Char.isWhitespace).reverse).asString

/-- Helper for Python's `sub in s` substring test. -/
def containsAux (pat : List Char) : List Char → Bool
  | [] => pat.isEmpty
  | c :: rest => pat.isPrefixOf (c :: rest) || containsAux pat rest

/-- Python `sub in s`. -/
def pyContains (s sub : String) : Bool := containsAux sub.toList s.toList

/-- Fuel-structured worker for Python `s.split(sep)` with non-empty `sep`. -/
def splitOnAux (sep : List Char) : Nat → List Char → List Char → List (List Char)
  | _, [], acc => [acc.reverse]
  | 0, s, acc => [acc.reverse ++ s]
  | Nat.succ fuel, c :: rest, acc =>
      if sep ≠ [] && sep.isPrefixOf (c :: rest) then
        acc.reverse :: splitOnAux sep fuel (List.drop sep.length (c :: rest)) []
      else splitOnAux sep fuel rest (c :: acc)

/-- Python `s.split(sep)` for a non-empty separator (keeps empty fields). -/
def pySplit (s sep : String) : List String :=
  (splitOnAux sep.toList s.toList.length s.toList []).map List.asString

/-- Python `s.startswith(pre)`. -/
def pyStartsWith (s pre : String) : Bool := pre.toList.isPrefixOf s.toList

/-- Python `s[:n]` on strings. -/
def pyTakeStr (s : String) (n : Nat) : String := (s.toList.take n).asString

/-- Python `s.replace(' ', '+')` — single-character replacement. -/
def pySpaceToPlus (s : String) : String :=
  (s.toList.map (fun c => if c = ' ' then '+' else c)).asString

/-- Python `l[:k]` for an arbitrary (possibly negative) integer `k`. -/
def pySliceTo {α : Type} (k : ℤ) (l : List α) : List α :=
  if 0 ≤ k then l.take k.toNat else l.take (l.length - (-k).toNat)

/-! ### `navigator/memory/semantic_indexer.py` — the data model -/

/-- One entry of `SemanticIndexer.memory`
(`{'id', 'text', 'embedding', 'metadata'}`). -/
structure MemoryItem where
  id : String
  text : String
  embedding : List ℝ
  metadata : List (String × String)

/-- `SemanticIndexer._cosine_similarity`.  Returns `0` when either vector is
empty, when the lengths differ, or when either squared magnitude is `0`;
otherwise `dot / (sqrt m1 * sqrt m2)`. -/
noncomputable def cosine_similarity (vec1 vec2 : List ℝ) : ℝ :=
  if vec1.isEmpty || vec2.isEmpty then 0
  else if vec1.length ≠ vec2.length then 0
  else if (vec1.map (fun p => p * p)).sum = 0 ∨ (vec2.map (fun q => q * q)).sum = 0
  then 0
  else (List.zipWith (fun p q => p * q) vec1 vec2).sum /
    (Real.sqrt ((vec1.map (fun p => p * p)).sum) *
     Real.sqrt ((vec2.map (fun q => q * q)).sum))

/-- `SemanticIndexer.add_to_memory`.  The embedding capability
(`_get_embedding`, which itself never raises) is passed as `embed`.
Returns the success flag and the new store. -/
def add_to_memory (embed : String → List ℝ) (memory : List MemoryItem)
    (item_id text_content : String) (metadata : Option (List (String × String))) :
    Bool × List MemoryItem :=
  if item_id = "" ∨ text_content = "" then (false, memory)
  else if (embed text_content).isEmpty then (false, memory)
  else if memory.any (fun item => item.id = item_id) then (false, memory)
  else (true, memory ++ [{ id := item_id, text := text_content,
                           embedding := embed text_content,
                           metadata := metadata.getD [] }])

/-- `SemanticIndexer.get_item_by_id`. -/
def get_item_by_id (memory : List MemoryItem) (item_id : String) :
    Option MemoryItem :=
  memory.find? (fun item => item.id = item_id)

/-- The `scored_items` list built by the loop inside `search_memory`:
every stored item whose embedding is non-empty (`if not item_embedding:
continue`), paired with its cosine similarity against the query embedding,
in store order. -/
noncomputable def scored_items (query_embedding : List ℝ)
    (memory : List MemoryItem) : List (MemoryItem × ℝ) :=
  (memory.filter (fun item => !item.embedding.isEmpty)).map
    (fun item => (item, cosine_similarity query_embedding item.embedding))

/-- Stable insertion for the descending sort performed by
`scored_items.sort(key=..., reverse=True)`: an element is placed before the
first element of not-larger score, so earlier elements stay first on ties. -/
noncomputable def insert_by_score (x : MemoryItem × ℝ) :
    List (MemoryItem × ℝ) → List (MemoryItem × ℝ)
  | [] => [x]
  | y :: ys => if y.2 ≤ x.2 then x :: y :: ys else y :: insert_by_score x ys

/-- Python's stable sort with `key=lambda x: x['similarity_score']` and
`reverse=True`, as a stable insertion sort (descending by score). -/
noncomputable def sort_by_score_desc :
    List (MemoryItem × ℝ) → List (MemoryItem × ℝ)
  | [] => []
  | x :: xs => insert_by_score x (sort_by_score_desc xs)

/-- `SemanticIndexer.search_memory`.  `top_k` is a Python `int`, so it is
modelled as `ℤ` and the final truncation `scored_items[:top_k]` uses Python
slice semantics. -/
noncomputable def search_memory (embed : String → List ℝ)
    (memory : List MemoryItem) (query_text : String) (top_k : ℤ) :
    List (MemoryItem × ℝ) :=
  if memory.isEmpty then []
  else if query_text = "" then []
  else if (embed query_text).isEmpty then []
  else pySliceTo top_k (sort_by_score_desc (scored_items (embed query_text) memory))

example : pyStrip (pyRemoveAll (pyLower "search for cats") "search") = "for cats" := by
  decide

/-! ### Lemmas about the stable descending sort -/

lemma insert_by_score_perm (x : MemoryItem × ℝ) (l : List (MemoryItem × ℝ)) :
    (insert_by_score x l).Perm (x :: l) := by
  induction l with
  | nil => simp [insert_by_score]
  | cons y ys ih =>
    rw [insert_by_score]
    split
    · exact List.Perm.refl _
    · exact (ih.cons y).trans (List.Perm.swap x y ys)

lemma sort_by_score_desc_perm (l : List (MemoryItem × ℝ)) :
    (sort_by_score_desc l).Perm l := by
  induction l with
  | nil => simp [sort_by_score_desc]
  | cons x xs ih =>
    exact (insert_by_score_perm x (sort_by_score_desc xs)).trans (ih.cons x)

lemma insert_by_score_sorted (x : MemoryItem × ℝ) {l : List (MemoryItem × ℝ)}
    (h : l.Pairwise (fun a b => b.2 ≤ a.2)) :
    (insert_by_score x l).Pairwise (fun a b => b.2 ≤ a.2) := by
  induction l with
  | nil => simp [insert_by_score]
  | cons y ys ih =>
    rcases List.pairwise_cons.mp h with ⟨hy, hys⟩
    rw [insert_by_score]
    split
    · next hle =>
      refine List.pairwise_cons.mpr ⟨?_, h⟩
      intro a ha
      rcases List.mem_cons.mp ha with rfl | ha
      · exact hle
      · exact le_trans (hy a ha) hle
    · next hnle =>
      refine List.pairwise_cons.mpr ⟨?_, ih hys⟩
      intro a ha
      rcases List.mem_cons.mp ((insert_by_score_perm x ys).mem_iff.mp ha) with rfl | ha
      · exact le_of_not_le hnle
      · exact hy a ha

lemma sort_by_score_desc_sorted (l : List (MemoryItem × ℝ)) :
    (sort_by_score_desc l).Pairwise (fun a b => b.2 ≤ a.2) := by
  induction l with
  | nil => simp [sort_by_score_desc]
  | cons x xs ih => exact insert_by_score_sorted x ih

lemma insert_by_score_filter (x : MemoryItem × ℝ) (l : List (MemoryItem × ℝ))
    (s : ℝ) :
    (insert_by_score x l).filter (fun p => decide (p.2 = s)) =
      if x.2 = s then x :: l.filter (fun p => decide (p.2 = s))
      else l.filter (fun p => decide (p.2 = s)) := by
  induction l with
  | nil =>
    simp only [insert_by_score, List.filter_cons, List.filter_nil]
    by_cases hx : x.2 = s <;> simp [hx]
  | cons y ys ih =>
    rw [insert_by_score]
    split
    · next hle =>
      simp only [List.filter_cons]
      by_cases hx : x.2 = s <;> by_cases hy : y.2 = s <;> simp [hx, hy]
    · next hnle =>
      have hxy : x.2 < y.2 := not_le.mp hnle
      simp only [List.filter_cons, ih]
      by_cases hx : x.2 = s
      · have hy : ¬ y.2 = s := by rw [← hx]; exact ne_of_gt hxy
        simp [hx, hy]
      · simp [hx]

lemma sort_by_score_desc_filter (l : List (MemoryItem × ℝ)) (s : ℝ) :
    (sort_by_score_desc l).filter (fun p => decide (p.2 = s)) =
      l.filter (fun p => decide (p.2 = s)) := by
  induction l with
  | nil => rfl
  | cons x xs ih =>
    rw [sort_by_score_desc, insert_by_score_filter, List.filter_cons, ih]
    by_cases hx : x.2 = s <;> simp [hx]

/-! ### Lemmas about sums of squares -/

lemma sq_sum_nonneg (v : List ℝ) : 0 ≤ (v.map (fun p => p * p)).sum := by
  refine List.sum_nonneg ?_
  intro x hx
  obtain ⟨a, _, rfl⟩ := List.mem_map.mp hx
  exact mul_self_nonneg a

lemma sq_sum_eq_zero_iff (v : List ℝ) :
    (v.map (fun p => p * p)).sum = 0 ↔ ∀ x ∈ v, x = 0 := by
  induction v with
  | nil => simp
  | cons a l ih =>
    simp only [List.map_cons, List.sum_cons]
    rw [add_eq_zero_iff_of_nonneg (mul_self_nonneg a) (sq_sum_nonneg l),
      mul_self_eq_zero, ih, List.forall_mem_cons]

lemma zipWith_mul_comm (v w : List ℝ) :
    List.zipWith (fun p q => p * q) v w = List.zipWith (fun p q => p * q) w v := by
  induction v generalizing w with
  | nil => cases w <;> rfl
  | cons a l ih =>
    cases w with
    | nil => rfl
    | cons b m => simp [List.zipWith_cons_cons, ih, mul_comm]

lemma zipWith_mul_map_neg_sum (v : List ℝ) :
    (List.zipWith (fun p q => p * q) v (v.map (fun x => -x))).sum =
      -((v.map (fun p => p * p)).sum) := by
  induction v with
  | nil => simp
  | cons a l ih => simp [ih]; ring

lemma map_neg_sq_sum (v : List ℝ) :
    ((v.map (fun x => -x)).map (fun p => p * p)).sum =
      (v.map (fun p => p * p)).sum := by
  induction v with
  | nil => simp
  | cons a l ih =>
    simp only [List.map_cons, List.sum_cons, neg_mul_neg] at ih ⊢
    simp only [List.map_map] at ih ⊢
    rw [ih]

/-! ### Claim C4 — algebraic properties of `_cosine_similarity` -/

/-- C4: the cosine-similarity function satisfies: for every non-zero vector
`v`, `cosine(v, v) = 1` and `cosine(v, -v) = -1`; for every pair of vectors,
`cosine(v, w) = cosine(w, v)`; and `cosine(v, w) = 0` whenever either vector
is all-zero or the two vectors have different lengths. -/
theorem cosine_similarity_algebraic_properties :
    (∀ v : List ℝ, (∃ x ∈ v, x ≠ 0) →
        cosine_similarity v v = 1 ∧
        cosine_similarity v (v.map (fun x => -x)) = -1) ∧
    (∀ v w : List ℝ, cosine_similarity v w = cosine_similarity w v) ∧
    (∀ v w : List ℝ,
        ((∀ x ∈ v, x = 0) ∨ (∀ x ∈ w, x = 0) ∨ v.length ≠ w.length) →
        cosine_similarity v w = 0) := by
  refine ⟨?_, ?_, ?_⟩
  · intro v hv
    obtain ⟨x0, hx0v, hx0⟩ := hv
    have hvne : v ≠ [] := by rintro rfl; exact absurd hx0v (List.not_mem_nil x0)
    have hie : v.isEmpty = false := by
      cases v
      · exact absurd rfl hvne
      · rfl
    have hm : (v.map (fun p => p * p)).sum ≠ 0 := by
      rw [Ne, sq_sum_eq_zero_iff]
      push_neg
      exact ⟨x0, hx0v, hx0⟩
    constructor
    · have h1 : ¬ ((v.isEmpty || v.isEmpty) = true) := by simp [hie]
      have h2 : ¬ (v.length ≠ v.length) := fun h => h rfl
      have h3 : ¬ ((v.map (fun p => p * p)).sum = 0 ∨
          (v.map (fun q => q * q)).sum = 0) := by
        rintro (h | h) <;> exact hm h
      rw [cosine_similarity, if_neg h1, if_neg h2, if_neg h3, List.zipWith_same,
        Real.mul_self_sqrt (sq_sum_nonneg v), div_self hm]
    · have hie2 : (v.map (fun x => -x)).isEmpty = false := by
        cases v
        · exact absurd rfl hvne
        · rfl
      have h1 : ¬ ((v.isEmpty || (v.map (fun x => -x)).isEmpty) = true) := by
        simp [hie, hie2]
      have h2 : ¬ (v.length ≠ (v.map (fun x => -x)).length) := by
        simp
      have h3 : ¬ ((v.map (fun p => p * p)).sum = 0 ∨
          ((v.map (fun x => -x)).map (fun q => q * q)).sum = 0) := by
        rw [map_neg_sq_sum]
        rintro (h | h) <;> exact hm h
      rw [cosine_similarity, if_neg h1, if_neg h2, if_neg h3,
        zipWith_mul_map_neg_sum, map_neg_sq_sum,
        Real.mul_self_sqrt (sq_sum_nonneg v), neg_div, div_self hm]
  · intro v w
    have e1 : (w.isEmpty || v.isEmpty) = (v.isEmpty || w.isEmpty) := Bool.or_comm _ _
    rw [cosine_similarity, cosine_similarity]
    by_cases h1 : (v.isEmpty || w.isEmpty) = true
    · have h1' : (w.isEmpty || v.isEmpty) = true := by rw [e1]; exact h1
      rw [if_pos h1, if_pos h1']
    · have h1' : ¬ (w.isEmpty || v.isEmpty) = true := by rw [e1]; exact h1
      rw [if_neg h1, if_neg h1']
      by_cases h2 : v.length ≠ w.length
      · have h2' : w.length ≠ v.length := Ne.symm h2
        rw [if_pos h2, if_pos h2']
      · have h2' : ¬ w.length ≠ v.length := fun h => h2 (Ne.symm h)
        rw [if_neg h2, if_neg h2']
        by_cases h3 : (v.map (fun p => p * p)).sum = 0 ∨
            (w.map (fun q => q * q)).sum = 0
        · have h3' : (w.map (fun p => p * p)).sum = 0 ∨
              (v.map (fun q => q * q)).sum = 0 := Or.symm h3
          rw [if_pos h3, if_pos h3']
        · have h3' : ¬ ((w.map (fun p => p * p)).sum = 0 ∨
              (v.map (fun q => q * q)).sum = 0) := fun h => h3 (Or.symm h)
          rw [if_neg h3, if_neg h3', zipWith_mul_comm v w,
            mul_comm (Real.sqrt ((v.map (fun p => p * p)).sum))
              (Real.sqrt ((w.map (fun q => q * q)).sum))]
  · intro v w h
    rw [cosine_similarity]
    by_cases h1 : (v.isEmpty || w.isEmpty) = true
    · rw [if_pos h1]
    · rw [if_neg h1]
      by_cases h2 : v.length ≠ w.length
      · rw [if_pos h2]
      · rw [if_neg h2]
        have h3 : (v.map (fun p => p * p)).sum = 0 ∨
            (w.map (fun q => q * q)).sum = 0 := by
          rcases h with h | h | h
          · exact Or.inl ((sq_sum_eq_zero_iff v).mpr h)
          · exact Or.inr ((sq_sum_eq_zero_iff w).mpr h)
          · exact absurd h h2
        rw [if_pos h3]

/-- Witness for C4, at the concrete vectors `[1]` and `[1, 2]`/`[3]`. -/
theorem cosine_similarity_algebraic_properties_witness :
    ((∃ x ∈ [(1 : ℝ)], x ≠ 0) ∧ cosine_similarity [(1 : ℝ)] [(1 : ℝ)] = 1) ∧
    cosine_similarity [(1 : ℝ), 2] [(3 : ℝ)] = 0 :=
  ⟨⟨⟨1, by simp, one_ne_zero⟩,
    (cosine_similarity_algebraic_properties.1 [1] ⟨1, by simp, one_ne_zero⟩).1⟩,
   cosine_similarity_algebraic_properties.2.2 [1, 2] [3]
     (Or.inr (Or.inr (by simp)))⟩

/-! ### Claim C3 — `add_to_memory` rejections -/

/-- C3: `add_to_memory` returns `false` and leaves the store unchanged
whenever the id is empty, the text is empty, or an item with the same id is
already present; in the duplicate case the originally stored item for that
id (in particular its text) is retained. -/
theorem add_to_memory_rejects_invalid_and_duplicates
    (embed : String → List ℝ) (memory : List MemoryItem)
    (item_id text_content : String) (metadata : Option (List (String × String)))
    (h : item_id = "" ∨ text_content = "" ∨
         memory.any (fun item => item.id = item_id) = true) :
    add_to_memory embed memory item_id text_content metadata = (false, memory) ∧
    get_item_by_id (add_to_memory embed memory item_id text_content metadata).2
        item_id = get_item_by_id memory item_id := by
  have hmain :
      add_to_memory embed memory item_id text_content metadata = (false, memory) := by
    rw [add_to_memory]
    by_cases h0 : item_id = "" ∨ text_content = ""
    · rw [if_pos h0]
    · rw [if_neg h0]
      have hdup : memory.any (fun item => item.id = item_id) = true := by
        rcases h with h | h | h
        · exact absurd (Or.inl h) h0
        · exact absurd (Or.inr h) h0
        · exact h
      by_cases he : (embed text_content).isEmpty = true
      · rw [if_pos he]
      · rw [if_neg he, if_pos hdup]
  exact ⟨hmain, by rw [hmain]⟩

/-- Witness for C3: a duplicate insert of id `"a"` fails and keeps the
original item. -/
theorem add_to_memory_rejects_invalid_and_duplicates_witness :
    ([({ id := "a", text := "t", embedding := [1], metadata := [] } :
        MemoryItem)].any (fun item => item.id = "a") = true) ∧
    (add_to_memory (fun _ => [1])
        [{ id := "a", text := "t", embedding := [1], metadata := [] }]
        "a" "t2" none =
      (false, [{ id := "a", text := "t", embedding := [1], metadata := [] }]) ∧
     get_item_by_id
        (add_to_memory (fun _ => [1])
          [{ id := "a", text := "t", embedding := [1], metadata := [] }]
          "a" "t2" none).2 "a" =
      get_item_by_id
        [{ id := "a", text := "t", embedding := [1], metadata := [] }] "a") :=
  ⟨by simp,
   add_to_memory_rejects_invalid_and_duplicates _ _ _ _ _
     (Or.inr (Or.inr (by simp)))⟩

/-! ### Claim C1 — ranking properties of `search_memory` -/

/-- C1: for every store state, non-empty query and non-negative `top_k`,
`search_memory` returns a sequence of (item, score) pairs of length at most
`top_k` whose scores are non-increasing, and in which the items of any fixed
score form a prefix of the equally-scored items in store (insertion) order
— i.e. ties preserve insertion order. -/
theorem search_memory_sorted_stable_truncated
    (embed : String → List ℝ) (memory : List MemoryItem)
    (query_text : String) (top_k : ℤ) (hq : query_text ≠ "") (hk : 0 ≤ top_k) :
    (search_memory embed memory query_text top_k).length ≤ top_k.toNat ∧
    (search_memory embed memory query_text top_k).Pairwise
      (fun a b => b.2 ≤ a.2) ∧
    ∀ s : ℝ,
      (search_memory embed memory query_text top_k).filter
          (fun p => decide (p.2 = s)) <+:
        (scored_items (embed query_text) memory).filter
          (fun p => decide (p.2 = s)) := by
  rw [search_memory]
  by_cases hm : memory.isEmpty = true
  · rw [if_pos hm]
    exact ⟨by simp, List.Pairwise.nil, fun s => by simp⟩
  · rw [if_neg hm, if_neg hq]
    by_cases he : (embed query_text).isEmpty = true
    · rw [if_pos he]
      exact ⟨by simp, List.Pairwise.nil, fun s => by simp⟩
    · rw [if_neg he, pySliceTo, if_pos hk]
      refine ⟨List.length_take_le _ _, ?_, ?_⟩
      · exact List.Pairwise.sublist (List.take_sublist _ _)
          (sort_by_score_desc_sorted _)
      · intro s
        have h1 := List.IsPrefix.filter (fun p => decide (p.2 = s))
          (List.take_prefix top_k.toNat
            (sort_by_score_desc (scored_items (embed query_text) memory)))
        rwa [sort_by_score_desc_filter] at h1

/-- Witness for C1 at a concrete one-item store. -/
theorem search_memory_sorted_stable_truncated_witness :
    ("hello" ≠ "" ∧ (0 : ℤ) ≤ 5) ∧
    ((search_memory (fun _ => [1])
        [{ id := "a", text := "t", embedding := [1], metadata := [] }]
        "hello" 5).length ≤ (5 : ℤ).toNat ∧
     (search_memory (fun _ => [1])
        [{ id := "a", text := "t", embedding := [1], metadata := [] }]
        "hello" 5).Pairwise (fun a b => b.2 ≤ a.2) ∧
     ∀ s : ℝ,
       (search_memory (fun _ => [1])
          [{ id := "a", text := "t", embedding := [1], metadata := [] }]
          "hello" 5).filter (fun p => decide (p.2 = s)) <+:
         (scored_items [1]
            [{ id := "a", text := "t", embedding := [1], metadata := [] }]).filter
           (fun p => decide (p.2 = s))) :=
  ⟨⟨by decide, by decide⟩,
   search_memory_sorted_stable_truncated _ _ _ _ (by decide) (by decide)⟩

/-! ### Claim C2 — items of mismatched embedding length -/

lemma cosine_similarity_one_one_one : cosine_similarity [(1 : ℝ)] [1, 1] = 0 := by
  rw [cosine_similarity]
  rw [if_neg (by decide : ¬ (([(1 : ℝ)].isEmpty || [(1 : ℝ), 1].isEmpty) = true))]
  rw [if_pos (by decide : [(1 : ℝ)].length ≠ [(1 : ℝ), 1].length)]

/-- C2 counterexample: a stored item whose embedding length (2) differs from
the query embedding's length (1) DOES appear in the results of
`search_memory` — it is scored `0` by `_cosine_similarity`'s length check
and is not filtered out. -/
theorem search_memory_includes_mismatched_length_item :
    (({ id := "a", text := "t", embedding := [1, 1], metadata := [] } :
        MemoryItem).embedding.length ≠ ([(1 : ℝ)]).length) ∧
    ({ id := "a", text := "t", embedding := [1, 1], metadata := [] }, (0 : ℝ)) ∈
      search_memory (fun _ => [1])
        [{ id := "a", text := "t", embedding := [1, 1], metadata := [] }]
        "x" 5 := by
  refine ⟨by decide, ?_⟩
  rw [search_memory]
  rw [if_neg (by decide :
    ¬ (([({ id := "a", text := "t", embedding := [1, 1], metadata := [] } :
        MemoryItem)].isEmpty) = true))]
  rw [if_neg (by decide : ¬ ("x" = ""))]
  rw [if_neg (by decide : ¬ (([(1 : ℝ)].isEmpty) = true))]
  simp only [scored_items, List.filter_cons, List.filter_nil, List.isEmpty_cons,
    Bool.not_false, if_true, List.map_cons, List.map_nil,
    cosine_similarity_one_one_one, sort_by_score_desc, insert_by_score,
    pySliceTo]
  rw [if_pos (by decide : (0 : ℤ) ≤ 5)]
  simp

/-- C2 amended: an item of mismatched embedding length is not excluded from
the returned sequence; it is excluded only from non-zero scoring — its
similarity score is `0` — and the search never errors on it.  (Whenever the
truncation keeps all scored items, the mismatched item is in the output with
score `0`.) -/
theorem search_memory_mismatched_scored_zero
    (embed : String → List ℝ) (memory : List MemoryItem) (query_text : String)
    (top_k : ℤ) (item : MemoryItem)
    (hq : query_text ≠ "") (hqe : (embed query_text).isEmpty = false)
    (hmem : item ∈ memory) (hne : item.embedding.isEmpty = false)
    (hlen : item.embedding.length ≠ (embed query_text).length)
    (hk : ((memory.filter (fun it => !it.embedding.isEmpty)).length : ℤ) ≤ top_k) :
    (item, (0 : ℝ)) ∈ search_memory embed memory query_text top_k := by
  have hm : memory.isEmpty = false := by
    cases memory
    · cases hmem
    · rfl
  have hc : cosine_similarity (embed query_text) item.embedding = 0 := by
    rw [cosine_similarity]
    rw [if_neg (by simp [hqe, hne] :
      ¬ (((embed query_text).isEmpty || item.embedding.isEmpty) = true))]
    rw [if_pos (Ne.symm hlen)]
  rw [search_memory, if_neg (by simp [hm]), if_neg hq, if_neg (by simp [hqe])]
  have hmem2 : (item, (0 : ℝ)) ∈ scored_items (embed query_text) memory := by
    rw [scored_items]
    refine List.mem_map.mpr ⟨item, ?_, by rw [hc]⟩
    exact List.mem_filter.mpr ⟨hmem, by simp [hne]⟩
  have hk0 : (0 : ℤ) ≤ top_k := by
    have : (0 : ℤ) ≤ ((memory.filter (fun it => !it.embedding.isEmpty)).length : ℤ) := by
      positivity
    omega
  have hlen2 :
      (sort_by_score_desc (scored_items (embed query_text) memory)).length ≤
        top_k.toNat := by
    rw [(sort_by_score_desc_perm _).length_eq, scored_items, List.length_map]
    omega
  rw [pySliceTo, if_pos hk0, List.take_of_length_le hlen2]
  exact (sort_by_score_desc_perm _).mem_iff.mpr hmem2

/-- Witness for the amended C2 at a concrete store. -/
theorem search_memory_mismatched_scored_zero_witness :
    ("x" ≠ "" ∧
     (({ id := "a", text := "t", embedding := [1, 1], metadata := [] } :
        MemoryItem).embedding.length ≠ ([(1 : ℝ)]).length)) ∧
    ({ id := "a", text := "t", embedding := [1, 1], metadata := [] }, (0 : ℝ)) ∈
      search_memory (fun _ => [1])
        [{ id := "a", text := "t", embedding := [1, 1], metadata := [] }]
        "x" 7 :=
  ⟨⟨by decide, by decide⟩,
   search_memory_mismatched_scored_zero _ _ _ _ _
     (by decide) rfl (List.mem_singleton.mpr rfl) rfl (by decide) (by decide)⟩

/-! ### Claim C10 — non-positive `top_k` -/

lemma cosine_similarity_one_negone : cosine_similarity [(1 : ℝ)] [(-1 : ℝ)] = -1 := by
  rw [cosine_similarity]
  rw [if_neg (by decide : ¬ (([(1 : ℝ)].isEmpty || [(-1 : ℝ)].isEmpty) = true))]
  rw [if_neg (by decide : ¬ ([(1 : ℝ)].length ≠ [(-1 : ℝ)].length))]
  have e1 : (([(1 : ℝ)]).map (fun p => p * p)).sum = 1 := by norm_num
  have e2 : (([(-1 : ℝ)]).map (fun q => q * q)).sum = 1 := by norm_num
  rw [e1, e2, if_neg (by norm_num : ¬ ((1 : ℝ) = 0 ∨ (1 : ℝ) = 0))]
  have e3 : (List.zipWith (fun p q => p * q) [(1 : ℝ)] [(-1 : ℝ)]).sum = -1 := by
    norm_num
  rw [e3, Real.sqrt_one]
  norm_num

/-- C10 counterexample: with `top_k = -1` the result is not
"all length-matching scored items except the one lowest-ranked": the store
holds a length-matching item `b` (score `-1`) and a mismatched-length item
`a` (score `0`), and the result is `[a]` — it contains the
non-length-matching item and dropped the matching one. -/
theorem search_memory_negative_topk_keeps_mismatched :
    search_memory (fun _ => [1])
        [{ id := "a", text := "ta", embedding := [1, 1], metadata := [] },
         { id := "b", text := "tb", embedding := [-1], metadata := [] }]
        "x" (-1) =
      [({ id := "a", text := "ta", embedding := [1, 1], metadata := [] },
        (0 : ℝ))] ∧
    (({ id := "a", text := "ta", embedding := [1, 1], metadata := [] } :
        MemoryItem).embedding.length ≠ ([(1 : ℝ)]).length) := by
  refine ⟨?_, by decide⟩
  rw [search_memory]
  rw [if_neg (by decide :
    ¬ (([{ id := "a", text := "ta", embedding := [1, 1], metadata := [] },
          { id := "b", text := "tb", embedding := [-1], metadata := [] }] :
          List MemoryItem).isEmpty = true))]
  rw [if_neg (by decide : ¬ ("x" = ""))]
  rw [if_neg (by decide : ¬ (([(1 : ℝ)].isEmpty) = true))]
  have hca : cosine_similarity [(1 : ℝ)]
      ({ id := "a", text := "ta", embedding := [1, 1], metadata := [] } :
        MemoryItem).embedding = 0 := cosine_similarity_one_one_one
  have hcb : cosine_similarity [(1 : ℝ)]
      ({ id := "b", text := "tb", embedding := [-1], metadata := [] } :
        MemoryItem).embedding = -1 := cosine_similarity_one_negone
  simp only [scored_items, List.filter_cons, List.filter_nil, List.isEmpty_cons,
    Bool.not_false, if_true, List.map_cons, List.map_nil, hca, hcb,
    sort_by_score_desc, insert_by_score]
  rw [if_pos (by norm_num : (-1 : ℝ) ≤ 0)]
  rw [pySliceTo, if_neg (by decide : ¬ ((0 : ℤ) ≤ -1))]
  norm_num

/-- C10 amended: `search_memory` with `top_k = 0` returns the empty sequence;
with a negative `top_k` (and a non-empty query embedding) it returns all
scored items — every stored item with a non-empty embedding, length-matching
or not — except the `|top_k|` lowest-ranked ones: the result is the prefix of
the full descending ranking missing its final `|top_k|` entries, and every
dropped item scores no higher than every kept one.  It never errors. -/
theorem search_memory_nonpositive_topk
    (embed : String → List ℝ) (memory : List MemoryItem) (query_text : String)
    (hm : memory.isEmpty = false) (hq : query_text ≠ "")
    (hqe : (embed query_text).isEmpty = false) :
    search_memory embed memory query_text 0 = [] ∧
    ∀ k : ℤ, k < 0 →
      search_memory embed memory query_text k <+:
          sort_by_score_desc (scored_items (embed query_text) memory) ∧
      (search_memory embed memory query_text k).length =
        (scored_items (embed query_text) memory).length - (-k).toNat ∧
      ∀ x ∈ (sort_by_score_desc (scored_items (embed query_text) memory)).drop
          ((sort_by_score_desc (scored_items (embed query_text) memory)).length -
            (-k).toNat),
        ∀ y ∈ search_memory embed memory query_text k, x.2 ≤ y.2 := by
  have hunfold : ∀ k : ℤ, search_memory embed memory query_text k =
      pySliceTo k (sort_by_score_desc (scored_items (embed query_text) memory)) := by
    intro k
    rw [search_memory, if_neg (by simp [hm]), if_neg hq, if_neg (by simp [hqe])]
  constructor
  · rw [hunfold, pySliceTo, if_pos le_rfl]
    simp
  · intro k hk
    rw [hunfold, pySliceTo, if_neg (not_le.mpr hk)]
    have hlen : (sort_by_score_desc (scored_items (embed query_text) memory)).length =
        (scored_items (embed query_text) memory).length :=
      (sort_by_score_desc_perm _).length_eq
    refine ⟨List.take_prefix _ _, ?_, ?_⟩
    · rw [List.length_take]
      omega
    · intro x hx y hy
      have hsorted := sort_by_score_desc_sorted (scored_items (embed query_text) memory)
      have hsplit := List.take_append_drop
        ((sort_by_score_desc (scored_items (embed query_text) memory)).length -
          (-k).toNat) (sort_by_score_desc (scored_items (embed query_text) memory))
      rw [← hsplit] at hsorted
      exact (List.pairwise_append.mp hsorted).2.2 y hy x hx

/-- Witness for the amended C10 at a concrete one-item store and `top_k = 0`
and all negative `top_k`. -/
theorem search_memory_nonpositive_topk_witness :
    (([({ id := "a", text := "t", embedding := [1], metadata := [] } :
        MemoryItem)].isEmpty = false) ∧ "x" ≠ "") ∧
    (search_memory (fun _ => [1])
        [{ id := "a", text := "t", embedding := [1], metadata := [] }] "x" 0 = [] ∧
     ∀ k : ℤ, k < 0 →
      search_memory (fun _ => [1])
          [{ id := "a", text := "t", embedding := [1], metadata := [] }] "x" k <+:
          sort_by_score_desc (scored_items [1]
            [{ id := "a", text := "t", embedding := [1], metadata := [] }]) ∧
      (search_memory (fun _ => [1])
          [{ id := "a", text := "t", embedding := [1], metadata := [] }] "x" k).length =
        (scored_items [1]
          [{ id := "a", text := "t", embedding := [1], metadata := [] }]).length -
          (-k).toNat ∧
      ∀ x ∈ (sort_by_score_desc (scored_items [1]
              [{ id := "a", text := "t", embedding := [1], metadata := [] }])).drop
          ((sort_by_score_desc (scored_items [1]
              [{ id := "a", text := "t", embedding := [1], metadata := [] }])).length -
            (-k).toNat),
        ∀ y ∈ search_memory (fun _ => [1])
            [{ id := "a", text := "t", embedding := [1], metadata := [] }] "x" k,
          x.2 ≤ y.2) :=
  ⟨⟨rfl, by decide⟩,
   search_memory_nonpositive_topk _ _ _ rfl (by decide) rfl⟩

/-! ### `navigator/web_navigator.py` — state, collaborators, events -/

/-- A captured API request (`request_data`); headers and body are modelled by
their JSON/string representations. -/
structure ApiRequest where
  method : String
  url : String
  headers : String
  body : String

/-- A captured API response (`response_data`). -/
structure ApiResponse where
  status_code : Int
  body : String

/-- Observable events of one run, used to state trace properties. -/
inductive Event where
  | navigate (url : String)
  | navError (url msg : String)
  | codeGen (step : String)
  | execAttempt (code : String)
  | fixRequest (code err : String)
  | memAdd (id : String) (ok : Bool)
  | apiAnalyze (method url : String)
  | dbInsert
  | dbRollback
  | dbClose
  | replayGen (method url : String)
  | recoveryPlan (err plan : String)
  | planRequest (goal plan : String)
  | summarize (goal text : String)
  | browserClose
deriving DecidableEq

def is_exec_event : Event → Bool
  | Event.execAttempt _ => true
  | _ => false

def is_nav_event : Event → Bool
  | Event.navigate _ => true
  | _ => false

def is_codegen_event : Event → Bool
  | Event.codeGen _ => true
  | _ => false

/-- The external collaborators of `WebNavigator`/`Navigator`.

`OllamaClient.generate_text` catches every exception and returns a fallback
payload, so every language-model-backed call (`generate_selenium_code`,
`fix_code`, `plan`, `analyze_ui`, `handle_error`,
`analyze_request_response_pair`, `generate_api_replay_code`, summarisation,
embeddings) is a total function.  The browser driver (`driver.get`, `exec` of
generated code) and the relational store (the injected `db_session_factory`
and the `db.add/commit` write) raise on failure, so they are `Except`-valued;
failures of the guarded calls are caught where the source catches them. -/
structure World where
  genCode : String → Option String → Option String → List String → String
  fixCode : String → String → String
  execCode : String → Except String (String × String)
  navigate : String → Except String (String × String × String)
  analyzeUi : String → Option String → String
  handleError : String → String → List String → String
  plan : String → String
  summarize : String → String
  embed : String → List ℝ
  analyzeApi : ApiRequest → Option ApiResponse → String
  dbAcquire : Except String Unit
  dbWrite : ApiRequest → Option ApiResponse → String → Except String Unit
  replayCode : ApiRequest → String

/-- The mutable fields of a `WebNavigator` (plus the driver liveness bit of
its `SeleniumManager`). -/
structure NavState where
  current_url : Option String
  page_content : Option String
  action_history : List String
  captured_apis : List ApiRequest
  memory : List MemoryItem
  driver : Bool

/-- Python `self.action_history[-5:] if len(...) > 5 else self.action_history`. -/
def last5 (hist : List String) : List String := hist.drop (hist.length - 5)

/-- `WebNavigator.go_to_url`: create the driver if needed, navigate, mirror
`current_url`/`page_source`, index the visit, log; every exception is caught
and logged as `NAVIGATION ERROR`. -/
def go_to_url (w : World) (s : NavState) (url : String) : NavState × List Event :=
  match w.navigate url with
  | Except.error e =>
      ({ s with
         driver := true,
         action_history := s.action_history ++ ["NAVIGATION ERROR: " ++ e] },
       [Event.navError url e])
  | Except.ok (cur, title, src) =>
      ({ s with
         driver := true,
         current_url := some cur,
         page_content := some src,
         memory := (add_to_memory w.embed s.memory ("page_" ++ cur)
           ("Visited page: " ++ cur ++ "\nPage Title: " ++ title ++
             "\nFirst 500 chars: " ++ pyTakeStr src 500)
           (some [("url", cur), ("type", "webpage_visit")])).2,
         action_history := s.action_history ++ ["NAVIGATION: Went to " ++ cur] },
       [Event.navigate url,
        Event.memAdd ("page_" ++ cur)
          (add_to_memory w.embed s.memory ("page_" ++ cur)
            ("Visited page: " ++ cur ++ "\nPage Title: " ++ title ++
              "\nFirst 500 chars: " ++ pyTakeStr src 500)
            (some [("url", cur), ("type", "webpage_visit")])).1])

/-- `WebNavigator.execute_selenium_code`: run the snippet; on success mirror
the browser state and log success; on failure log the error and re-raise
(the third component carries the raised error). -/
def execute_selenium_code (w : World) (s : NavState) (code : String) :
    NavState × List Event × Option String :=
  match w.execCode code with
  | Except.ok (cur, src) =>
      ({ s with
         driver := true,
         current_url := some cur,
         page_content := some src,
         action_history := s.action_history ++ ["CODE EXECUTION: Success"] },
       [Event.execAttempt code], none)
  | Except.error e =>
      ({ s with
         driver := true,
         action_history := s.action_history ++ ["CODE EXECUTION ERROR: " ++ e] },
       [Event.execAttempt code], some e)

/-- `WebNavigator.execute_step_with_code_generation`: generate code, execute
it, and on failure request exactly one fix and execute the fixed code once;
a second failure is recorded (`CODE EXECUTION FAILED`) and swallowed. -/
def execute_step_with_code_generation (w : World) (s : NavState) (step : String) :
    NavState × List Event × Option String :=
  match execute_selenium_code w
      { s with action_history := s.action_history ++
        ["GENERATED CODE: " ++
          pyTakeStr (w.genCode step s.current_url s.page_content
            (last5 s.action_history)) 100 ++ "..."] }
      (w.genCode step s.current_url s.page_content (last5 s.action_history)) with
  | (s2, ev2, none) => (s2, Event.codeGen step :: ev2, none)
  | (s2, ev2, some e) =>
      match execute_selenium_code w
          { s2 with action_history := s2.action_history ++
            ["FIXED CODE: " ++
              pyTakeStr (w.fixCode
                (w.genCode step s.current_url s.page_content
                  (last5 s.action_history)) e) 100 ++ "..."] }
          (w.fixCode (w.genCode step s.current_url s.page_content
            (last5 s.action_history)) e) with
      | (s4, ev4, none) =>
          (s4, Event.codeGen step :: ev2 ++
            [Event.fixRequest (w.genCode step s.current_url s.page_content
              (last5 s.action_history)) e] ++ ev4, none)
      | (s4, ev4, some e2) =>
          ({ s4 with action_history := s4.action_history ++
             ["CODE EXECUTION FAILED: " ++ e2] },
           Event.codeGen step :: ev2 ++
            [Event.fixRequest (w.genCode step s.current_url s.page_content
              (last5 s.action_history)) e] ++ ev4, none)

/-- Step classification of `navigate_and_learn`: the step text contains
`"navigate"`, `"go to"` or `"open"` (case-insensitively). -/
def is_navigation_step (step : String) : Bool :=
  pyContains (pyLower step) "navigate" || pyContains (pyLower step) "go to" ||
    pyContains (pyLower step) "open"

/-- The URL scan of `navigate_and_learn`: the first whitespace-split token
that starts with `"http"` or contains `"www."`. -/
def find_url_token (step : String) : Option String :=
  (pySplit step " ").find?
    (fun part => pyStartsWith part "http" || pyContains part "www.")

/-- The per-step action dispatch of the `navigate_and_learn` step loop
(after the `PLAN STEP` history entry has been appended): navigation steps
navigate to the first URL-like token and fall back to code generation only
when `self.current_url is None`; all other steps go to code generation. -/
def run_plan_step_action (w : World) (s0 : NavState) (step : String) :
    NavState × List Event × Option String :=
  if is_navigation_step step then
    match find_url_token step with
    | some part =>
        match go_to_url w s0 part with
        | (sa, eva) =>
            if sa.current_url = none then
              match execute_step_with_code_generation w sa step with
              | (sb, evb, rb) => (sb, eva ++ evb, rb)
            else (sa, eva, none)
    | none =>
        if s0.current_url = none then
          execute_step_with_code_generation w s0 step
        else (s0, [], none)
  else execute_step_with_code_generation w s0 step

/-- The post-step UI analysis of the step loop: if `self.page_content` is
truthy, analyze the UI and index the result. -/
def run_plan_step_ui_analysis (w : World) (s1 : NavState) (ev1 : List Event)
    (step : String) : NavState × List Event × Option String :=
  match s1.page_content with
  | none => (s1, ev1, none)
  | some content =>
      if content = "" then (s1, ev1, none)
      else
        ({ s1 with
           memory := (add_to_memory w.embed s1.memory
             ("ui_analysis_" ++ toString s1.action_history.length)
             (w.analyzeUi content s1.current_url)
             (some [("type", "ui_analysis"), ("url", s1.current_url.getD ""),
                    ("step", step)])).2 },
         ev1 ++ [Event.memAdd
           ("ui_analysis_" ++ toString s1.action_history.length)
           (add_to_memory w.embed s1.memory
             ("ui_analysis_" ++ toString s1.action_history.length)
             (w.analyzeUi content s1.current_url)
             (some [("type", "ui_analysis"), ("url", s1.current_url.getD ""),
                    ("step", step)])).1], none)

/-- One iteration of the `navigate_and_learn` step loop. -/
def run_plan_step (w : World) (s : NavState) (step : String) :
    NavState × List Event × Option String :=
  match run_plan_step_action w
      { s with action_history := s.action_history ++ ["PLAN STEP: " ++ step] }
      step with
  | (s1, ev1, some e) => (s1, ev1, some e)
  | (s1, ev1, none) => run_plan_step_ui_analysis w s1 ev1 step

/-- The `navigate_and_learn` step loop (`for i, step in enumerate(plan_steps)`);
an exception raised by a step escapes the loop. -/
def run_plan_steps (w : World) : NavState → List String →
    NavState × List Event × Option String
  | s, [] => (s, [], none)
  | s, step :: rest =>
      match run_plan_step w s step with
      | (s1, ev1, some e) => (s1, ev1, some e)
      | (s1, ev1, none) =>
          match run_plan_steps w s1 rest with
          | (s2, ev2, r2) => (s2, ev1 ++ ev2, r2)

/-! ### `navigate_and_learn` — parsing, default search fallback, recovery -/

/-- The plan parsing of `navigate_and_learn`:
`[step.strip() for step in (plan or "").split("\n") if step.strip()]`. -/
def parse_plan_steps (plan : String) : List String :=
  ((pySplit plan "\n").map pyStrip).filter (fun step => step ≠ "")

/-- The default-search trigger terms of `navigate_and_learn`. -/
def search_trigger_terms : List String :=
  ["search", "find", "look up", "google", "check"]

/-- `any(term in user_goal.lower() for term in [...])`. -/
def has_search_trigger (user_goal : String) : Bool :=
  search_trigger_terms.any (fun term => pyContains (pyLower user_goal) term)

/-- The derived search term: lowercase the goal, remove every trigger term,
strip. -/
def derive_search_term (user_goal : String) : String :=
  pyStrip (pyRemoveAll (pyRemoveAll (pyRemoveAll (pyRemoveAll (pyRemoveAll
    (pyLower user_goal) "search") "find") "look up") "google") "check")

/-- The hardcoded DuckDuckGo search snippet of the default behaviour, with
the `"{search_term}"` placeholder already substituted (the source builds it
with `.replace("{search_term}", search_term)`); it submits the term through
the input located by name `q`. -/
def default_search_code (term : String) : String :=
  "\nfrom selenium.webdriver.common.by import By\n" ++
  "from selenium.webdriver.common.keys import Keys\n" ++
  "from selenium.webdriver.support.ui import WebDriverWait\n" ++
  "from selenium.webdriver.support import expected_conditions as EC\n\n" ++
  "search_input = WebDriverWait(driver, 10).until(\n" ++
  "    EC.presence_of_element_located((By.NAME, \"q\"))\n" ++
  ")\nsearch_input.clear()\nsearch_input.send_keys(f\"" ++ term ++
  "\")\nsearch_input.send_keys(Keys.RETURN)\n                            "

/-- The plan-indexing prologue of `navigate_and_learn`
(`if plan and plan.strip(): add_to_memory(...)`). -/
def add_plan_to_memory (w : World) (s : NavState) (user_goal : String)
    (plan : Option String) : NavState × List Event :=
  if pyStrip (plan.getD "") = "" then (s, [])
  else
    ({ s with
       memory := (add_to_memory w.embed s.memory
         ("plan_" ++ toString s.action_history.length)
         ("Plan for goal: " ++ user_goal ++ "\n" ++ plan.getD "")
         (some [("type", "plan"), ("goal", user_goal)])).2 },
     [Event.memAdd ("plan_" ++ toString s.action_history.length)
       (add_to_memory w.embed s.memory
         ("plan_" ++ toString s.action_history.length)
         ("Plan for goal: " ++ user_goal ++ "\n" ++ plan.getD "")
         (some [("type", "plan"), ("goal", user_goal)])).1])

/-- The default search behaviour for an empty plan with a search-intent goal:
go to DuckDuckGo, and — if the driver exists — try the search snippet; a
snippet failure is caught and logged, after which control falls through to
the (empty) step loop. -/
def navigate_default_search (w : World) (s0 : NavState) (ev0 : List Event)
    (user_goal : String) : NavState × List Event × Option String :=
  match go_to_url w s0 "https://duckduckgo.com/" with
  | (s1, ev1) =>
      if s1.driver then
        match execute_selenium_code w s1
            (default_search_code (derive_search_term user_goal)) with
        | (s2, ev2, none) =>
            ({ s2 with
               action_history := s2.action_history ++
                 ["DEFAULT: Searched for '" ++ derive_search_term user_goal ++
                  "' on DuckDuckGo"] },
             ev0 ++ ev1 ++ ev2, none)
        | (s2, ev2, some _) => (s2, ev0 ++ ev1 ++ ev2, none)
      else (s1, ev0 ++ ev1, none)

/-- The body of `navigate_and_learn`'s `try` block. -/
def navigate_and_learn_body (w : World) (s : NavState) (user_goal : String)
    (plan : Option String) : NavState × List Event × Option String :=
  match add_plan_to_memory w s user_goal plan with
  | (s0, ev0) =>
      if (parse_plan_steps (plan.getD "")).isEmpty then
        if has_search_trigger user_goal then
          navigate_default_search w s0 ev0 user_goal
        else (s0, ev0, none)
      else
        match run_plan_steps w s0 (parse_plan_steps (plan.getD "")) with
        | (s1, ev1, r1) => (s1, ev0 ++ ev1, r1)

/-- The `except` handler of `navigate_and_learn`: generate a recovery plan
from the error, the goal and the action history, and — for search-intent
goals — perform the canned direct-search fallback.  It never re-raises. -/
def navigate_and_learn_recover (w : World) (s : NavState) (user_goal : String)
    (e : String) : NavState × List Event × Option String :=
  if has_search_trigger user_goal then
    match go_to_url w s
        ("https://duckduckgo.com/?q=" ++
          pySpaceToPlus (derive_search_term user_goal)) with
    | (s1, ev1) =>
        (s1, Event.recoveryPlan e (w.handleError e user_goal s.action_history)
          :: ev1, none)
  else
    (s, [Event.recoveryPlan e (w.handleError e user_goal s.action_history)],
     none)

/-- `WebNavigator.navigate_and_learn`: the `try` body, with any escaping
exception caught by the recovery handler. -/
def navigate_and_learn (w : World) (s : NavState) (user_goal : String)
    (plan : Option String) : NavState × List Event × Option String :=
  match navigate_and_learn_body w s user_goal plan with
  | (s1, ev1, none) => (s1, ev1, none)
  | (s1, ev1, some e) =>
      match navigate_and_learn_recover w s1 user_goal e with
      | (s2, ev2, r2) => (s2, ev1 ++ ev2, r2)

/-! ### `process_and_store_api_request` and `perform_web_goal` -/

/-- The first memory-indexing call of `process_and_store_api_request`
(step 4, `metadata.type = "api_request"`). -/
def process_api_mem_add (w : World) (s1 : NavState) (req : ApiRequest)
    (analysis : String) : Bool × List MemoryItem :=
  add_to_memory w.embed s1.memory ("api_" ++ req.method ++ "_" ++ req.url)
    ("API Request: " ++ req.method ++ " " ++ req.url ++
      "\nHeaders: " ++ req.headers ++ "\nBody: " ++ req.body ++
      "\nAnalysis: " ++ analysis)
    (some [("type", "api_request"), ("url", req.url), ("method", req.method)])

/-- The replay-code memory-indexing call of `process_and_store_api_request`
(step 6, `metadata.type = "api_replay_code"`). -/
def process_replay_mem_add (w : World) (mem1 : List MemoryItem)
    (req : ApiRequest) : Bool × List MemoryItem :=
  add_to_memory w.embed mem1 ("api_" ++ req.method ++ "_" ++ req.url ++ "_replay")
    ("API Replay Code for " ++ req.method ++ " " ++ req.url ++ ":\n" ++
      w.replayCode req)
    (some [("type", "api_replay_code"), ("url", req.url),
           ("method", req.method)])

/-- Steps 4–6 of `process_and_store_api_request`: index the analysed request,
log it, generate replay code and index that too. -/
def process_memory_steps (w : World) (s1 : NavState) (req : ApiRequest)
    (analysis : String) (ev : List Event) : NavState × List Event × Option String :=
  ({ s1 with
     memory := (process_replay_mem_add w
       (process_api_mem_add w s1 req analysis).2 req).2,
     action_history := s1.action_history ++
       ["API CAPTURED: " ++ req.method ++ " " ++ req.url] },
   ev ++ [Event.memAdd ("api_" ++ req.method ++ "_" ++ req.url)
            (process_api_mem_add w s1 req analysis).1,
          Event.replayGen req.method req.url,
          Event.memAdd ("api_" ++ req.method ++ "_" ++ req.url ++ "_replay")
            (process_replay_mem_add w
              (process_api_mem_add w s1 req analysis).2 req).1],
   none)

/-- Step 3 onward of `process_and_store_api_request`: acquire a database
session (`next(self.db_session_factory())`, unguarded — its failure
propagates), perform the guarded write (`db.add/commit` inside
`try/except`-with-rollback), close the session, then run steps 4–6. -/
def process_after_analysis (w : World) (s1 : NavState) (req : ApiRequest)
    (resp : Option ApiResponse) (analysis : String) :
    NavState × List Event × Option String :=
  match w.dbAcquire with
  | Except.error e => (s1, [Event.apiAnalyze req.method req.url], some e)
  | Except.ok _ =>
      process_memory_steps w s1 req analysis
        ([Event.apiAnalyze req.method req.url] ++
          (match w.dbWrite req resp analysis with
           | Except.ok _ => [Event.dbInsert]
           | Except.error _ => [Event.dbRollback]) ++ [Event.dbClose])

/-- `WebNavigator.process_and_store_api_request`: record the capture, analyse
it (a total language-model call), then persist, index and generate replay
code. -/
def process_and_store_api_request (w : World) (s : NavState) (req : ApiRequest)
    (resp : Option ApiResponse) : NavState × List Event × Option String :=
  process_after_analysis w
    { s with captured_apis := s.captured_apis ++ [req] }
    req resp (w.analyzeApi req resp)

/-- `Navigator.perform_web_goal`: plan (the plan text is computed but not
passed to `navigate_and_learn`), execute, summarise, and close the browser in
a `finally` block — also when the body raised, in which case the exception
then propagates. -/
def perform_web_goal (w : World) (s : NavState) (user_goal : String) :
    NavState × List Event × Option String :=
  match navigate_and_learn w s user_goal none with
  | (s1, ev1, some e) =>
      ({ s1 with driver := false },
       Event.planRequest user_goal (w.plan user_goal) :: ev1 ++
         [Event.browserClose], some e)
  | (s1, ev1, none) =>
      ({ s1 with driver := false },
       Event.planRequest user_goal (w.plan user_goal) :: ev1 ++
         [Event.summarize user_goal (w.summarize user_goal),
          Event.browserClose], none)

/-- A world in which every collaborator succeeds. -/
def triv_world : World where
  genCode := fun _ _ _ _ => "GEN"
  fixCode := fun _ _ => "FIXED"
  execCode := fun _ => Except.ok ("https://duckduckgo.com/", "<html>")
  navigate := fun url => Except.ok (url, "Title", "<html>")
  analyzeUi := fun _ _ => "ui analysis"
  handleError := fun _ _ _ => "recovery"
  plan := fun _ => "plan"
  summarize := fun _ => "summary"
  embed := fun _ => [1]
  analyzeApi := fun _ _ => "analysis"
  dbAcquire := Except.ok ()
  dbWrite := fun _ _ _ => Except.ok ()
  replayCode := fun _ => "replay"

/-- The initial state of a fresh `WebNavigator`. -/
def init_state : NavState where
  current_url := none
  page_content := none
  action_history := []
  captured_apis := []
  memory := []
  driver := false

/-! ### Totality of the step runner and of the step loop -/

lemma execute_step_raises_none (w : World) (s : NavState) (step : String) :
    (execute_step_with_code_generation w s step).2.2 = none := by
  rw [execute_step_with_code_generation]
  cases h1 : w.execCode (w.genCode step s.current_url s.page_content
      (last5 s.action_history)) with
  | ok v =>
    obtain ⟨cu, ps⟩ := v
    simp [execute_selenium_code, h1]
  | error e =>
    cases h2 : w.execCode (w.fixCode (w.genCode step s.current_url
        s.page_content (last5 s.action_history)) e) with
    | ok v =>
      obtain ⟨cu, ps⟩ := v
      simp [execute_selenium_code, h1, h2]
    | error e2 => simp [execute_selenium_code, h1, h2]

lemma run_plan_step_action_raises_none (w : World) (s : NavState) (step : String) :
    (run_plan_step_action w s step).2.2 = none := by
  rw [run_plan_step_action]
  split
  · split
    · split
      next sa eva hg =>
        split
        · split
          next sb evb rb hx =>
            have h0 := execute_step_raises_none w sa step
            rw [hx] at h0
            simpa using h0
        · rfl
    · split
      · exact execute_step_raises_none w s step
      · rfl
  · exact execute_step_raises_none w s step

lemma run_plan_step_ui_analysis_raises_none (w : World) (s1 : NavState)
    (ev1 : List Event) (step : String) :
    (run_plan_step_ui_analysis w s1 ev1 step).2.2 = none := by
  rw [run_plan_step_ui_analysis]
  split
  · rfl
  · split
    · rfl
    · rfl

lemma run_plan_step_raises_none (w : World) (s : NavState) (step : String) :
    (run_plan_step w s step).2.2 = none := by
  rw [run_plan_step]
  split
  · next s1 ev1 e heq =>
      have h0 := run_plan_step_action_raises_none w
        { s with action_history := s.action_history ++ ["PLAN STEP: " ++ step] }
        step
      rw [heq] at h0
      simp at h0
  · next s1 ev1 heq => exact run_plan_step_ui_analysis_raises_none w s1 ev1 step

lemma run_plan_steps_raises_none (w : World) (s : NavState) (steps : List String) :
    (run_plan_steps w s steps).2.2 = none := by
  induction steps generalizing s with
  | nil => rfl
  | cons step rest ih =>
    rw [run_plan_steps]
    split
    · next s1 ev1 e heq =>
        have h0 := run_plan_step_raises_none w s step
        rw [heq] at h0
        simp at h0
    · next s1 ev1 heq =>
        split
        next s2 ev2 r2 heq2 =>
          have h3 := ih s1
          rw [heq2] at h3
          simpa using h3

lemma navigate_default_search_raises_none (w : World) (s0 : NavState)
    (ev0 : List Event) (user_goal : String) :
    (navigate_default_search w s0 ev0 user_goal).2.2 = none := by
  rw [navigate_default_search]
  split
  next s1 ev1 hg =>
    split
    · split
      · rfl
      · rfl
    · rfl

lemma navigate_and_learn_body_raises_none (w : World) (s : NavState)
    (user_goal : String) (plan : Option String) :
    (navigate_and_learn_body w s user_goal plan).2.2 = none := by
  rw [navigate_and_learn_body]
  split
  next s0 ev0 hp =>
    split
    · split
      · exact navigate_default_search_raises_none w s0 ev0 user_goal
      · rfl
    · split
      next s1 ev1 r1 hr =>
        have h3 := run_plan_steps_raises_none w s0 (parse_plan_steps (plan.getD ""))
        rw [hr] at h3
        simpa using h3

lemma navigate_and_learn_recover_spec (w : World) (s : NavState)
    (user_goal e : String) :
    (navigate_and_learn_recover w s user_goal e).2.2 = none ∧
    Event.recoveryPlan e (w.handleError e user_goal s.action_history) ∈
      (navigate_and_learn_recover w s user_goal e).2.1 := by
  rw [navigate_and_learn_recover]
  split
  · split
    next s1 ev1 hg => exact ⟨rfl, List.mem_cons_self _ _⟩
  · exact ⟨rfl, List.mem_cons_self _ _⟩

lemma navigate_and_learn_raises_none (w : World) (s : NavState)
    (user_goal : String) (plan : Option String) :
    (navigate_and_learn w s user_goal plan).2.2 = none := by
  rw [navigate_and_learn]
  split
  · rfl
  · next s1 ev1 e heq =>
      have h0 := navigate_and_learn_body_raises_none w s user_goal plan
      rw [heq] at h0
      simp at h0

/-! ### Claim C9 — guaranteed teardown and error containment -/

/-- C9: for every world and initial state, (a) `navigate_and_learn` never
raises for any plan — any exception escaping the step loop is caught at its
`try/except` boundary, so nothing propagates to `perform_web_goal`'s caller
from the plan execution; (b) `perform_web_goal` always performs the browser
teardown (`close_browser`: the close event is in the trace and the driver is
down) and itself returns normally; (c) the `except` boundary handler always
invokes the error-recovery planner (with the error, the goal and the action
history) and never re-raises. -/
theorem perform_web_goal_teardown_and_error_containment
    (w : World) (s : NavState) (user_goal : String) :
    (∀ plan, (navigate_and_learn w s user_goal plan).2.2 = none) ∧
    Event.browserClose ∈ (perform_web_goal w s user_goal).2.1 ∧
    (perform_web_goal w s user_goal).2.2 = none ∧
    (perform_web_goal w s user_goal).1.driver = false ∧
    ∀ e, (navigate_and_learn_recover w s user_goal e).2.2 = none ∧
      Event.recoveryPlan e (w.handleError e user_goal s.action_history) ∈
        (navigate_and_learn_recover w s user_goal e).2.1 := by
  refine ⟨fun plan => navigate_and_learn_raises_none w s user_goal plan,
    ?_, ?_, ?_, fun e => navigate_and_learn_recover_spec w s user_goal e⟩
  all_goals
    rcases hn : navigate_and_learn w s user_goal none with ⟨s1, ev1, r1⟩
  all_goals
    have h0 := navigate_and_learn_raises_none w s user_goal none
  all_goals
    rw [hn] at h0
  all_goals
    simp only at h0
  all_goals
    subst h0
  · rw [perform_web_goal, hn]
    simp
  · rw [perform_web_goal, hn]
  · rw [perform_web_goal, hn]

/-! ### Claim C6 — the generate/execute/fix retry policy -/

/-- C6: when the generated action code fails on first execution with error
`e1`, the step runner requests exactly one fix (passing the failing code and
the error text) and executes the fixed code exactly once — the trace is
exactly generate, execute, fix-request, execute, so the step's code runs at
most twice; no exception propagates out of the step runner; after a second
failure the step is marked failed (`CODE EXECUTION FAILED`) in the history;
and the step loop over `step :: rest` still completes without raising. -/
theorem execute_step_retry_policy (w : World) (s : NavState) (step : String)
    (e1 : String)
    (hfail : w.execCode (w.genCode step s.current_url s.page_content
      (last5 s.action_history)) = Except.error e1) :
    (execute_step_with_code_generation w s step).2.1 =
      [Event.codeGen step,
       Event.execAttempt (w.genCode step s.current_url s.page_content
         (last5 s.action_history)),
       Event.fixRequest (w.genCode step s.current_url s.page_content
         (last5 s.action_history)) e1,
       Event.execAttempt (w.fixCode (w.genCode step s.current_url
         s.page_content (last5 s.action_history)) e1)] ∧
    (execute_step_with_code_generation w s step).2.2 = none ∧
    (∀ e2, w.execCode (w.fixCode (w.genCode step s.current_url s.page_content
        (last5 s.action_history)) e1) = Except.error e2 →
      (execute_step_with_code_generation w s step).1.action_history.getLast? =
        some ("CODE EXECUTION FAILED: " ++ e2)) ∧
    ∀ rest : List String, (run_plan_steps w s (step :: rest)).2.2 = none := by
  refine ⟨?_, execute_step_raises_none w s step, ?_,
    fun rest => run_plan_steps_raises_none w s (step :: rest)⟩
  · rw [execute_step_with_code_generation]
    cases h2 : w.execCode (w.fixCode (w.genCode step s.current_url
        s.page_content (last5 s.action_history)) e1) with
    | ok v =>
      obtain ⟨cu, ps⟩ := v
      simp [execute_selenium_code, hfail, h2]
    | error e2 => simp [execute_selenium_code, hfail, h2]
  · intro e2 h2
    rw [execute_step_with_code_generation]
    simp only [execute_selenium_code, hfail, h2]
    simp [List.getLast?_concat]

/-- Witness for C6: a world whose generated code `"GEN"` always fails with
`"E1"` while the fixed code succeeds. -/
theorem execute_step_retry_policy_witness :
    ({ triv_world with
       execCode := fun c =>
         if c = "GEN" then Except.error "E1" else Except.ok ("u", "p") } :
       World).execCode "GEN" = Except.error "E1" ∧
    (execute_step_with_code_generation
      { triv_world with
        execCode := fun c =>
          if c = "GEN" then Except.error "E1" else Except.ok ("u", "p") }
      init_state "click").2.1 =
      [Event.codeGen "click", Event.execAttempt "GEN",
       Event.fixRequest "GEN" "E1", Event.execAttempt "FIXED"] :=
  ⟨rfl,
   (execute_step_retry_policy
     { triv_world with
       execCode := fun c =>
         if c = "GEN" then Except.error "E1" else Except.ok ("u", "p") }
     init_state "click" "E1" rfl).1⟩

/-! ### Claim C7 — navigation-classified steps without a URL token -/

/-- C7 evidence (code bug): a step classified as navigation
(`"Open the settings menu"` contains `"open"`) with no `http`/`www.` token is
delegated to code generation only when `self.current_url is None`.  With a
current URL already set the step is silently skipped (no code-generation
event at all), contradicting the inline comment
`# If no URL found, try to generate code for this step` and the claim; from
a fresh state (no current URL) the very same step is delegated. -/
theorem nav_step_without_url_skips_codegen_when_url_set :
    ((run_plan_step triv_world
        { init_state with
          current_url := some "https://duckduckgo.com/",
          driver := true }
        "Open the settings menu").2.1.filter is_codegen_event = []) ∧
    ((run_plan_step triv_world init_state "Open the settings menu").2.1.filter
        is_codegen_event = [Event.codeGen "Open the settings menu"]) :=
  ⟨rfl, rfl⟩

/-! ### Claim C8 — empty-plan default search fallback -/

/-- C8: with an empty plan and goal `"search for cats"`, the default
fallback fires: the derived search term is exactly `"for cats"` (trigger
word removed, whitespace trimmed); the submitted snippet targets the input
named `q`; and — when navigation and the snippet succeed — the run performs
exactly one navigation event (to the default search engine) and one
search-submit execution, both recorded in the action history, and returns
normally. -/
theorem empty_plan_search_fallback (w : World) (s : NavState)
    (u ti src cu ps : String)
    (hnav : w.navigate "https://duckduckgo.com/" = Except.ok (u, ti, src))
    (hexec : w.execCode (default_search_code "for cats") = Except.ok (cu, ps)) :
    derive_search_term "search for cats" = "for cats" ∧
    (pySplit (default_search_code "for cats") "(By.NAME, \"q\")").length = 2 ∧
    (navigate_and_learn w s "search for cats" none).2.2 = none ∧
    ((navigate_and_learn w s "search for cats" none).2.1.filter is_nav_event =
      [Event.navigate "https://duckduckgo.com/"]) ∧
    ((navigate_and_learn w s "search for cats" none).2.1.filter is_exec_event =
      [Event.execAttempt (default_search_code "for cats")]) ∧
    (navigate_and_learn w s "search for cats" none).1.action_history =
      s.action_history ++
        ["NAVIGATION: Went to " ++ u, "CODE EXECUTION: Success",
         "DEFAULT: Searched for 'for cats' on DuckDuckGo"] := by
  have hterm : derive_search_term "search for cats" = "for cats" := by decide
  have hsp : (pySplit (default_search_code "for cats")
      "(By.NAME, \"q\")").length = 2 := by decide
  have h1 : add_plan_to_memory w s "search for cats" none = (s, []) := rfl
  have h2 : (parse_plan_steps ((none : Option String).getD "")).isEmpty = true :=
    rfl
  have hts : has_search_trigger "search for cats" = true := by decide
  have hb : navigate_and_learn_body w s "search for cats" none =
      navigate_default_search w s [] "search for cats" := by
    rw [navigate_and_learn_body]
    split
    next s0 ev0 hp =>
      rw [h1] at hp
      injection hp with hpa hpb
      subst hpa
      subst hpb
      rw [if_pos h2, if_pos hts]
  have hd : ∃ S EV, navigate_default_search w s [] "search for cats" =
      (S, EV, none) ∧
      EV.filter is_nav_event = [Event.navigate "https://duckduckgo.com/"] ∧
      EV.filter is_exec_event =
        [Event.execAttempt (default_search_code "for cats")] ∧
      S.action_history = s.action_history ++
        ["NAVIGATION: Went to " ++ u, "CODE EXECUTION: Success",
         "DEFAULT: Searched for 'for cats' on DuckDuckGo"] := by
    rw [navigate_default_search]
    split
    next s1 ev1 hg =>
      simp only [go_to_url, hnav] at hg
      injection hg with hga hgb
      subst hga
      subst hgb
      rw [if_pos rfl, hterm]
      split
      · next s2 ev2 heq =>
        simp only [execute_selenium_code, hexec] at heq
        injection heq with hqa hqb
        injection hqb with hqb1 hqb2
        subst hqa
        subst hqb1
        refine ⟨_, _, rfl, ?_, ?_, ?_⟩
        · simp [is_nav_event, List.filter]
        · simp [is_exec_event, List.filter]
        · simp
      · next s2 ev2 e heq =>
        simp only [execute_selenium_code, hexec] at heq
        injection heq with hqa hqb
        injection hqb with hqb1 hqb2
        exact absurd hqb2 (by simp)
  obtain ⟨S, EV, hres, hnav2, hexec2, hhist⟩ := hd
  refine ⟨hterm, hsp, ?_, ?_, ?_, ?_⟩
  · rw [navigate_and_learn, hb, hres]
  · rw [navigate_and_learn, hb, hres]
    exact hnav2
  · rw [navigate_and_learn, hb, hres]
    exact hexec2
  · rw [navigate_and_learn, hb, hres]
    exact hhist

/-- Witness for C8 in the all-success world, from a fresh state. -/
theorem empty_plan_search_fallback_witness :
    (triv_world.navigate "https://duckduckgo.com/" =
       Except.ok ("https://duckduckgo.com/", "Title", "<html>") ∧
     triv_world.execCode (default_search_code "for cats") =
       Except.ok ("https://duckduckgo.com/", "<html>")) ∧
    (derive_search_term "search for cats" = "for cats" ∧
     (pySplit (default_search_code "for cats") "(By.NAME, \"q\")").length = 2 ∧
     (navigate_and_learn triv_world init_state "search for cats" none).2.2 =
       none ∧
     ((navigate_and_learn triv_world init_state "search for cats"
         none).2.1.filter is_nav_event =
       [Event.navigate "https://duckduckgo.com/"]) ∧
     ((navigate_and_learn triv_world init_state "search for cats"
         none).2.1.filter is_exec_event =
       [Event.execAttempt (default_search_code "for cats")]) ∧
     (navigate_and_learn triv_world init_state "search for cats"
         none).1.action_history =
       init_state.action_history ++
         ["NAVIGATION: Went to " ++ "https://duckduckgo.com/",
          "CODE EXECUTION: Success",
          "DEFAULT: Searched for 'for cats' on DuckDuckGo"]) :=
  ⟨⟨rfl, rfl⟩,
   empty_plan_search_fallback triv_world init_state
     "https://duckduckgo.com/" "Title" "<html>"
     "https://duckduckgo.com/" "<html>" rfl rfl⟩

/-! ### Claim C5 — the API-capture pipeline -/

/-- A world whose injected database session factory raises. -/
def db_down_world : World := { triv_world with dbAcquire := Except.error "db down" }

/-- C5 counterexample: `process_and_store_api_request` is NOT exception-free
and the persistence step is NOT fully isolated from memory indexing: the
session acquisition `db: Session = next(self.db_session_factory())` sits
before (outside) the `try`, so when the injected session factory raises, the
call raises to its caller and neither memory-indexing, nor replay-code
generation, nor the history log happen — the store is unchanged. -/
theorem process_api_request_raises_on_db_session_failure :
    process_and_store_api_request db_down_world init_state
        { method := "GET", url := "https://api.example.com/items",
          headers := "h", body := "b" } none =
      ({ init_state with
         captured_apis :=
           [{ method := "GET", url := "https://api.example.com/items",
              headers := "h", body := "b" }] },
       [Event.apiAnalyze "GET" "https://api.example.com/items"],
       some "db down") ∧
    (process_and_store_api_request db_down_world init_state
        { method := "GET", url := "https://api.example.com/items",
          headers := "h", body := "b" } none).1.memory = [] :=
  ⟨rfl, rfl⟩

/-- C5 amended: once the database session is acquired, the pipeline is
isolated and total: the guarded write (`db.add/commit` in `try/except`) is
rolled back on failure and never prevents the memory-indexing step, the
replay-code generation or the history log, and `process` returns normally —
but a failure acquiring (or closing) the session propagates to the caller
and skips every later step. -/
theorem process_api_request_db_write_failure_isolated
    (w : World) (s : NavState) (req : ApiRequest) (resp : Option ApiResponse)
    (hacq : w.dbAcquire = Except.ok ()) :
    (process_and_store_api_request w s req resp).2.2 = none ∧
    (∃ b, Event.memAdd ("api_" ++ req.method ++ "_" ++ req.url) b ∈
       (process_and_store_api_request w s req resp).2.1) ∧
    Event.replayGen req.method req.url ∈
      (process_and_store_api_request w s req resp).2.1 ∧
    (∃ b, Event.memAdd ("api_" ++ req.method ++ "_" ++ req.url ++ "_replay") b ∈
       (process_and_store_api_request w s req resp).2.1) ∧
    (∀ e, w.dbWrite req resp (w.analyzeApi req resp) = Except.error e →
       Event.dbRollback ∈ (process_and_store_api_request w s req resp).2.1) := by
  cases hw : w.dbWrite req resp (w.analyzeApi req resp) with
  | ok v =>
    simp only [process_and_store_api_request, process_after_analysis, hacq,
      process_memory_steps, hw]
    refine ⟨trivial,
      ⟨_, List.mem_append_right _ (List.mem_cons_self _ _)⟩,
      List.mem_append_right _
        (List.mem_cons_of_mem _ (List.mem_cons_self _ _)),
      ⟨_, List.mem_append_right _ (List.mem_cons_of_mem _
        (List.mem_cons_of_mem _ (List.mem_cons_self _ _)))⟩,
      fun e he => absurd he (by simp)⟩
  | error ebad =>
    simp only [process_and_store_api_request, process_after_analysis, hacq,
      process_memory_steps, hw]
    refine ⟨trivial,
      ⟨_, List.mem_append_right _ (List.mem_cons_self _ _)⟩,
      List.mem_append_right _
        (List.mem_cons_of_mem _ (List.mem_cons_self _ _)),
      ⟨_, List.mem_append_right _ (List.mem_cons_of_mem _
        (List.mem_cons_of_mem _ (List.mem_cons_self _ _)))⟩,
      fun e he => by simp⟩

/-- Witness for the amended C5 in the all-success world. -/
theorem process_api_request_db_write_failure_isolated_witness :
    triv_world.dbAcquire = Except.ok () ∧
    (process_and_store_api_request triv_world init_state
        { method := "GET", url := "u", headers := "h", body := "b" }
        none).2.2 = none ∧
    Event.replayGen "GET" "u" ∈
      (process_and_store_api_request triv_world init_state
        { method := "GET", url := "u", headers := "h", body := "b" }
        none).2.1 :=
  ⟨rfl,
   (process_api_request_db_write_failure_isolated triv_world init_state
     { method := "GET", url := "u", headers := "h", body := "b" } none rfl).1,
   (process_api_request_db_write_failure_isolated triv_world init_state
     { method := "GET", url := "u", headers := "h", body := "b" } none
     rfl).2.2.1⟩
